import Mathlib

/-!
A shallow embedding of the `eis_toolkit` utility functions
(`raster_processing/resampling.py`, `exploratory_analyses/statistical_tests.py`,
`transformations/one_hot_encoding.py`, and the pairwise logratio transform),
together with theorems about their validation and metadata behaviour.

Numeric scalars are embedded as rationals, Python `round` as round-half-to-even,
affine transforms as 2x3 rational matrices following the `affine` library, and
third-party numerical kernels (rasterio resampling, scipy `shapiro`, pandas
`corr`/`cov`, sklearn `OneHotEncoder`) as the data handed across the library
boundary, per the spec's description of that boundary.
-/

namespace EisToolkit

/-- The exception taxonomy of `eis_toolkit.exceptions` (the members used by the
embedded functions). -/
inductive Exc
  | numericValueSign
  | emptyDataFrame
  | emptyData
  | invalidParameterValue
  | sampleSizeExceeded
  | invalidColumn
  | nonNumericData
  | invalidDataset
deriving DecidableEq, Repr

/-- Python's built-in `round` on a real-valued argument: round half to even,
returning an integer. -/
def pyRound (q : ℚ) : ℤ :=
  let f : ℤ := q.floor
  let r : ℚ := q - (f : ℚ)
  if r < 1 / 2 then f
  else if 1 / 2 < r then f + 1
  else if f % 2 = 0 then f else f + 1

/-- The computable `Rat.floor` inside `pyRound` is the mathematical floor. -/
theorem ratFloor_eq_floor (q : ℚ) : q.floor = ⌊q⌋ := by
  rw [Rat.floor_def']
  exact Rat.floor_def.symm

/-- `pyRound` rewritten through the mathematical floor, for evaluation by
`norm_num`. -/
theorem pyRound_eq_floor (q : ℚ) :
    pyRound q =
      if q - (⌊q⌋ : ℚ) < 1 / 2 then ⌊q⌋
      else if 1 / 2 < q - (⌊q⌋ : ℚ) then ⌊q⌋ + 1
      else if ⌊q⌋ % 2 = 0 then ⌊q⌋ else ⌊q⌋ + 1 := by
  simp only [pyRound, ratFloor_eq_floor]

/-- `round` of an exact integer is that integer. -/
theorem pyRound_intCast (k : ℤ) : pyRound (k : ℚ) = k := by
  simp [pyRound_eq_floor]

/-- `rasterio.enums.Resampling` (the members named in the source). -/
inductive Resampling
  | nearest
  | bilinear
  | cubic
  | average
deriving DecidableEq, Repr

/-- An affine georeferencing transform, as in the `affine` library:
`| a b c |`
`| d e f |`
`| 0 0 1 |`
where `a` is the pixel width (x scale) and `e` the pixel height (y scale). -/
structure Affine where
  a : ℚ
  b : ℚ
  c : ℚ
  d : ℚ
  e : ℚ
  f : ℚ
deriving DecidableEq, Repr

/-- `Affine.scale(sx, sy)`: a pure scaling transform. -/
def Affine.scale (sx sy : ℚ) : Affine :=
  ⟨sx, 0, 0, 0, sy, 0⟩

/-- Composition of affine transforms (`Affine.__mul__` of the `affine`
library): matrix product of the underlying 3x3 matrices. -/
def Affine.mul (t s : Affine) : Affine :=
  ⟨t.a * s.a + t.b * s.d, t.a * s.b + t.b * s.e, t.a * s.c + t.b * s.f + t.c,
   t.d * s.a + t.e * s.d, t.d * s.b + t.e * s.e, t.d * s.c + t.e * s.f + t.f⟩

/-- The raster profile dictionary `raster.meta` (the keys the source touches,
plus the ones `rasterio` always carries, so that `meta.copy()` followed by
`meta.update({...})` is an honest record update). -/
structure Meta where
  driver : String
  dtype : String
  nodata : Option ℚ
  width : ℤ
  height : ℤ
  count : Nat
  crs : Nat
  transform : Affine
deriving DecidableEq, Repr

/-- A `rasterio.io.DatasetReader`: grid dimensions, band count, georeferencing
transform, profile metadata, and the dataset's decimated-read behaviour.
`readData count outHeight outWidth method` is the (flattened) pixel data that
`raster.read(out_shape=(count, outHeight, outWidth), resampling=method)`
produces; the resampling kernel itself is the external library's, so it is
carried as an arbitrary deterministic function of the requested shape and
method. -/
structure Raster where
  count : Nat
  width : Nat
  height : Nat
  transform : Affine
  meta : Meta
  readData : Nat → ℤ → ℤ → Resampling → List ℚ

/-- A numpy array as returned by `raster.read`: its shape
`(count, height, width)` (so `shape[-1]` is `width` and `shape[-2]` is
`height`) and its flattened pixel data. -/
structure Image where
  count : Nat
  height : ℤ
  width : ℤ
  data : List ℚ
deriving DecidableEq, Repr

/-- `_resample` of `eis_toolkit/raster_processing/resampling.py`: defaults the
vertical factor to the horizontal one, reads the source at the decimated shape
`(count, round(height * upscale_factor), round(width * upscale_factor_y))`,
rescales the transform by the ratio of old to actual new dimensions, and
updates the copied metadata with the new transform, dimensions and a nodata
of 0. -/
def resample_core (raster : Raster) (resampling_method : Resampling)
    (upscale_factor : ℚ) (upscale_factor_y : Option ℚ) : Image × Meta :=
  let uy : ℚ := upscale_factor_y.getD upscale_factor
  let outH : ℤ := pyRound ((raster.height : ℚ) * upscale_factor)
  let outW : ℤ := pyRound ((raster.width : ℚ) * uy)
  let out_image : Image :=
    ⟨raster.count, outH, outW, raster.readData raster.count outH outW resampling_method⟩
  let out_transform :=
    raster.transform.mul
      (Affine.scale ((raster.width : ℚ) / (out_image.width : ℚ))
        ((raster.height : ℚ) / (out_image.height : ℚ)))
  let out_meta : Meta :=
    { raster.meta with
      transform := out_transform
      width := out_image.width
      height := out_image.height
      nodata := some 0 }
  (out_image, out_meta)

/-- Modelled from the spec: `eis_toolkit/checks/parameter.py` is not under
`src/` (only its caller `resampling.py` is). Per the spec's precondition —
"the horizontal scale factor must be strictly positive. Violation fails with
an invalid numeric sign error" — the check holds exactly of strictly positive
values. -/
def check_numeric_value_sign (parameter : ℚ) : Bool :=
  decide (0 < parameter)

/-- `resample` of `eis_toolkit/raster_processing/resampling.py`: raises
`NumericValueSignException` when the sign check fails, otherwise delegates to
the core resampling routine. -/
def resample (raster : Raster) (upscale_factor : ℚ) (upscale_factor_y : Option ℚ)
    (resampling_method : Resampling) : Except Exc (Image × Meta) :=
  if !(check_numeric_value_sign upscale_factor) then .error .numericValueSign
  else .ok (resample_core raster resampling_method upscale_factor upscale_factor_y)

/-- A concrete metadata record used by witnesses. -/
def sampleMeta : Meta :=
  ⟨"GTiff", "float32", none, 10, 20, 1, 3067, ⟨1, 0, 0, 0, -1, 0⟩⟩

/-- A concrete raster (width 10, height 20, unit pixel size) used by
witnesses. -/
def sampleRaster : Raster :=
  ⟨1, 10, 20, ⟨1, 0, 0, 0, -1, 0⟩, sampleMeta, fun _ _ _ _ => []⟩

/-- A concrete 7x7 raster with unit pixel size, on which `round` actually
rounds (7 * 1/2 = 3.5). -/
def oddRaster : Raster :=
  ⟨1, 7, 7, ⟨1, 0, 0, 0, -1, 0⟩, sampleMeta, fun _ _ _ _ => []⟩

/-- For a strictly positive factor the sign check passes and `resample`
returns the core result. -/
theorem resample_eq_ok (r : Raster) (s : ℚ) (sy : Option ℚ) (m : Resampling)
    (hs : 0 < s) : resample r s sy m = .ok (resample_core r m s sy) := by
  simp [resample, check_numeric_value_sign, hs]

/-- C1: the claim states the output width is `round(original_width * s_x)`
and the output height `round(original_height * s_y)`. Evaluating the code at
a raster of width 10 and height 20 with `s_x = 2` and `s_y = 3` returns a
grid of width 30 = round(10 * 3) and height 40 = round(20 * 2): the
horizontal factor scales the height and the vertical factor the width,
against the claim (which expects width 20 and height 60) and against the
function's own docstring. -/
theorem resample_swaps_the_two_factors :
    ∃ p, resample sampleRaster 2 (some 3) .bilinear = .ok p ∧
      p.1.width = 30 ∧ p.1.height = 40 := by
  refine ⟨_, resample_eq_ok sampleRaster 2 (some 3) .bilinear (by norm_num), ?_, ?_⟩ <;>
    norm_num [resample_core, sampleRaster, pyRound_eq_floor]

/-- C2: for a non-positive scale factor, `resample` fails with
`NumericValueSignException`, and the outcome does not depend on the raster's
read behaviour (the failure happens before any read of the source). -/
theorem resample_nonpositive_factor_fails (r : Raster) (s : ℚ) (sy : Option ℚ)
    (m : Resampling) (h : s ≤ 0) :
    resample r s sy m = .error .numericValueSign ∧
      ∀ rd, resample { r with readData := rd } s sy m = resample r s sy m := by
  have hc : check_numeric_value_sign s = false := by
    simp [check_numeric_value_sign, not_lt.mpr h]
  exact ⟨by simp [resample, hc], fun rd => by simp [resample, hc]⟩

/-- Witness for C2 at the concrete raster and factor -1. -/
theorem resample_nonpositive_factor_fails_witness :
    (-1 : ℚ) ≤ 0 ∧ resample sampleRaster (-1) none .bilinear = .error .numericValueSign :=
  ⟨by decide, (resample_nonpositive_factor_fails sampleRaster (-1) none .bilinear (by decide)).1⟩

/-- C3: for any strictly positive factor (whenever the computed output
dimensions are positive, as they must be for the library read and the
division to succeed), the returned metadata carries the input transform
scaled by the ratio of old to actual new width and height, a nodata of 0
regardless of the source nodata, and width/height fields equal to the output
grid's. -/
theorem resample_meta_consistent (r : Raster) (s : ℚ) (sy : Option ℚ)
    (m : Resampling) (hs : 0 < s)
    (hW : 0 < pyRound ((r.width : ℚ) * (sy.getD s)))
    (hH : 0 < pyRound ((r.height : ℚ) * s)) :
    ∃ img meta, resample r s sy m = .ok (img, meta) ∧
      meta.transform =
        r.transform.mul
          (Affine.scale ((r.width : ℚ) / (img.width : ℚ))
            ((r.height : ℚ) / (img.height : ℚ))) ∧
      meta.nodata = some 0 ∧
      meta.width = img.width ∧ meta.height = img.height := by
  exact ⟨_, _, resample_eq_ok r s sy m hs, rfl, rfl, rfl, rfl⟩

/-- Witness for C3 at the concrete raster with factor 2. -/
theorem resample_meta_consistent_witness :
    (0 : ℚ) < 2 ∧ 0 < pyRound ((sampleRaster.width : ℚ) * ((none : Option ℚ).getD 2)) ∧
      0 < pyRound ((sampleRaster.height : ℚ) * 2) ∧
      ∃ img meta, resample sampleRaster 2 none .bilinear = .ok (img, meta) ∧
        meta.transform =
          sampleRaster.transform.mul
            (Affine.scale ((sampleRaster.width : ℚ) / (img.width : ℚ))
              ((sampleRaster.height : ℚ) / (img.height : ℚ))) ∧
        meta.nodata = some 0 ∧
        meta.width = img.width ∧ meta.height = img.height :=
  ⟨by norm_num, by norm_num [sampleRaster, pyRound_eq_floor],
    by norm_num [sampleRaster, pyRound_eq_floor],
    resample_meta_consistent sampleRaster 2 none .bilinear (by norm_num)
      (by norm_num [sampleRaster, pyRound_eq_floor])
      (by norm_num [sampleRaster, pyRound_eq_floor])⟩

/-- C4 counterexample: at the 7x7 unit-pixel raster with `s = 1/2` the output
pixel width is 1 * 7/round(3.5) = 7/4, not the claimed 1 / (1/2) = 2: the
claim fails whenever `round` actually rounds. -/
theorem resample_pixel_size_not_exact_counterexample :
    (0 : ℚ) < 1 / 2 ∧
      ∃ p, resample oddRaster (1 / 2) none .bilinear = .ok p ∧
        p.2.transform.a = 7 / 4 ∧
        oddRaster.transform.a / (1 / 2) = 2 ∧ (7 / 4 : ℚ) ≠ 2 := by
  refine ⟨by norm_num, _, resample_eq_ok oddRaster (1 / 2) none .bilinear (by norm_num),
    ?_, ?_, by norm_num⟩
  · norm_num [resample_core, oddRaster, pyRound_eq_floor, Affine.mul, Affine.scale]
  · norm_num [oddRaster]

/-- C4 (amended): for a strictly positive factor `s` used for both axes, the
output pixel size equals the input pixel size times
`original_dim / round(original_dim * s)`; whenever `original_width * s` and
`original_height * s` are (positive) whole numbers — so rounding is exact —
this is the input pixel size divided by `s`. -/
theorem resample_pixel_size_exact_when_integral (r : Raster) (s : ℚ)
    (m : Resampling) (kw kh : ℤ) (hs : 0 < s)
    (hkw : (r.width : ℚ) * s = (kw : ℚ)) (hkw0 : 0 < kw)
    (hkh : (r.height : ℚ) * s = (kh : ℚ)) (hkh0 : 0 < kh) :
    ∃ p, resample r s none m = .ok p ∧
      p.2.transform.a = r.transform.a / s ∧
      p.2.transform.e = r.transform.e / s := by
  have hsne : s ≠ 0 := ne_of_gt hs
  have hwne : (r.width : ℚ) ≠ 0 := by
    intro h0
    rw [h0, zero_mul] at hkw
    exact absurd (show (kw : ℚ) > 0 by exact_mod_cast hkw0) (by rw [← hkw]; norm_num)
  have hhne : (r.height : ℚ) ≠ 0 := by
    intro h0
    rw [h0, zero_mul] at hkh
    exact absurd (show (kh : ℚ) > 0 by exact_mod_cast hkh0) (by rw [← hkh]; norm_num)
  refine ⟨_, resample_eq_ok r s none m hs, ?_, ?_⟩
  · show (resample_core r m s none).2.transform.a = _
    simp only [resample_core, Affine.mul, Affine.scale, Option.getD, hkw, hkh,
      pyRound_intCast]
    rw [← hkw]
    field_simp
    ring
  · show (resample_core r m s none).2.transform.e = _
    simp only [resample_core, Affine.mul, Affine.scale, Option.getD, hkw, hkh,
      pyRound_intCast]
    rw [← hkh]
    field_simp
    ring

/-- Witness for the amended C4 at the concrete 10x20 raster with factor 2. -/
theorem resample_pixel_size_exact_when_integral_witness :
    (0 : ℚ) < 2 ∧ (sampleRaster.width : ℚ) * 2 = ((20 : ℤ) : ℚ) ∧
      (0 : ℤ) < 20 ∧ (sampleRaster.height : ℚ) * 2 = ((40 : ℤ) : ℚ) ∧ (0 : ℤ) < 40 ∧
      ∃ p, resample sampleRaster 2 none .bilinear = .ok p ∧
        p.2.transform.a = sampleRaster.transform.a / 2 ∧
        p.2.transform.e = sampleRaster.transform.e / 2 :=
  ⟨by norm_num, by norm_num [sampleRaster], by norm_num, by norm_num [sampleRaster],
    by norm_num,
    resample_pixel_size_exact_when_integral sampleRaster 2 .bilinear 20 40
      (by norm_num) (by norm_num [sampleRaster]) (by norm_num)
      (by norm_num [sampleRaster]) (by norm_num)⟩

/-- C9: the call with the vertical factor absent returns exactly the image
and metadata of the call with the vertical factor explicitly equal to the
horizontal one. -/
theorem resample_default_vertical_factor (r : Raster) (s : ℚ) (m : Resampling)
    (hs : 0 < s) : resample r s none m = resample r s (some s) m := rfl

/-- Witness for C9 at the concrete raster with factor 2. -/
theorem resample_default_vertical_factor_witness :
    (0 : ℚ) < 2 ∧
      resample sampleRaster 2 none .bilinear = resample sampleRaster 2 (some 2) .bilinear :=
  ⟨by norm_num, resample_default_vertical_factor sampleRaster 2 .bilinear (by norm_num)⟩

/-- A cell of a pandas/numpy table: a numeric value, a float NaN, or a
(categorical) string. -/
inductive Val
  | num (q : ℚ)
  | nan
  | str (s : String)
deriving DecidableEq, Repr

/-- A pandas DataFrame: named columns of cells (all columns of a well-formed
frame have the same length, the number of rows). -/
structure DataFrame where
  cols : List (String × List Val)
deriving DecidableEq, Repr

/-- The column labels, in order. -/
def DataFrame.colNames (df : DataFrame) : List String :=
  df.cols.map Prod.fst

/-- `df[name]`: the cells of the (first) column so labelled. -/
def DataFrame.getCol (df : DataFrame) (name : String) : List Val :=
  ((df.cols.find? fun c => c.1 == name).map Prod.snd).getD []

/-- pandas `DataFrame.empty`: true when either axis has length zero. -/
def DataFrame.pdEmpty (df : DataFrame) : Bool :=
  df.cols.isEmpty || df.cols.all fun c => c.2.isEmpty

/-- `df[columns]`: the selected columns, in the requested order. -/
def DataFrame.select (df : DataFrame) (columns : List String) : DataFrame :=
  ⟨columns.map fun c => (c, df.getCol c)⟩

/-- `df.drop(names, axis=1)` as a value: the frame without the named
columns. -/
def DataFrame.dropCols (df : DataFrame) (names : List String) : DataFrame :=
  ⟨df.cols.filter fun c => !(names.contains c.1)⟩

/-- The number of rows of the frame (the longest column, so it is total on
ill-formed frames too). -/
def DataFrame.nrows (df : DataFrame) : Nat :=
  (df.cols.map fun c => c.2.length).foldr max 0

/-- pandas `DataFrame.dropna()`: keep only the rows in which no column holds
a NaN. -/
def DataFrame.dropna (df : DataFrame) : DataFrame :=
  let keep : Nat → Bool := fun i => df.cols.all fun c => !(c.2.getD i Val.nan == Val.nan)
  ⟨df.cols.map fun c => (c.1, ((List.range df.nrows).filter keep).map fun i => c.2.getD i Val.nan)⟩

/-- Modelled from the spec: `eis_toolkit/utilities/checks/dataframe.py` (and
`eis_toolkit/checks/dataframe.py`) are not under `src/`, only their callers
are. Per the spec's "empty-input errors ... raised eagerly" over an "empty
table", the check holds exactly of tables with no items. -/
def check_empty_dataframe (df : DataFrame) : Bool :=
  df.pdEmpty

/-- Modelled from the spec: the column-existence guard behind the spec's
"target column must exist in the table" and "invalid-column errors" — all
the named columns occur among the frame's columns. -/
def check_columns_valid (df : DataFrame) (columns : List String) : Bool :=
  columns.all fun c => df.colNames.contains c

/-- A cell a numeric (float) column may hold. -/
def Val.isNumCell : Val → Bool
  | .num _ => true
  | .nan => true
  | .str _ => false

/-- Modelled from the spec: the numeric-dtype guard behind the spec's
"non-numeric-data errors" — every cell of each named column is numeric
(NaN included). -/
def check_columns_numeric (df : DataFrame) (columns : List String) : Bool :=
  columns.all fun c => (df.getCol c).all Val.isNumCell

/-- A numpy ndarray: its shape and its flattened cells (for a well-formed
array `data.length = shape.prod`). -/
structure NpArray where
  shape : List Nat
  data : List Val
deriving DecidableEq, Repr

/-- numpy `arr.size`: the total number of elements. -/
def NpArray.size (a : NpArray) : Nat := a.shape.prod

/-- Python `len(arr)`: the length of the first axis. -/
def NpArray.pyLen (a : NpArray) : Nat := a.shape.headD 0

/-- The `Union[pd.DataFrame, np.ndarray]` input of `normality_test`. -/
inductive NormalityInput
  | frame (df : DataFrame)
  | array (arr : NpArray)
deriving DecidableEq, Repr

/-- The value returned by `normality_test`, with the scipy `shapiro` call at
the library boundary: what the function returns is determined by the sample
each `shapiro` call receives, so the embedding records those samples. -/
inductive NormalityResult
  | frameStats (stats : List (String × List Val))
  | arrayStats (sample : List Val)
deriving DecidableEq, Repr

/-- The per-column loop of `normality_test`'s DataFrame branch: for each
column in order, raise `SampleSizeExceededException` when it holds more than
5000 cells, otherwise hand it to `shapiro`. -/
def shapiroColumns (df : DataFrame) : List String → Except Exc (List (String × List Val))
  | [] => .ok []
  | c :: rest =>
    if (df.getCol c).length > 5000 then .error .sampleSizeExceeded
    else
      match shapiroColumns df rest with
      | .error e => .error e
      | .ok stats => .ok ((c, df.getCol c) :: stats)

/-- `normality_test` of
`eis_toolkit/exploratory_analyses/statistical_tests.py`: the DataFrame branch
validates emptiness, column existence and numeric dtype, drops NaN rows when
columns were selected, and tests each column (guarded at 5000 cells per
column); the ndarray branch rejects empty arrays, rejects arrays whose
`len()` — the first-axis length — exceeds 5000, then removes NaNs and tests
the flattened sample. -/
def normality_test (data : NormalityInput) (columns : Option (List String)) :
    Except Exc NormalityResult :=
  match data with
  | .frame df =>
    if check_empty_dataframe df then .error .emptyData
    else
      match columns with
      | some cols =>
        if !(check_columns_valid df cols) then .error .invalidColumn
        else if !(check_columns_numeric df cols) then .error .nonNumericData
        else
          match shapiroColumns ((df.select cols).dropna) cols with
          | .error e => .error e
          | .ok stats => .ok (.frameStats stats)
      | none =>
        if !(check_columns_numeric df df.colNames) then .error .nonNumericData
        else
          match shapiroColumns df df.colNames with
          | .error e => .error e
          | .ok stats => .ok (.frameStats stats)
  | .array arr =>
    if arr.size = 0 then .error .emptyData
    else if arr.pyLen > 5000 then .error .sampleSizeExceeded
    else .ok (.arrayStats (arr.data.filter fun v => !(v == Val.nan)))

/-- The `correlation_method` literal of `correlation_matrix`. -/
inductive CorrMethod
  | pearson
  | kendall
  | spearman
deriving DecidableEq, Repr

/-- `correlation_matrix` of
`eis_toolkit/exploratory_analyses/statistical_tests.py`: empty check, numeric
check, the kendall/min_periods incompatibility check, then the pandas `corr`
call — the value returned is whatever the library computes from the data,
method and `min_periods`, so the embedding records those arguments. -/
def correlation_matrix (data : DataFrame) (correlation_method : CorrMethod)
    (min_periods : Option ℤ) : Except Exc (DataFrame × CorrMethod × Option ℤ) :=
  if check_empty_dataframe data then .error .emptyDataFrame
  else if !(check_columns_numeric data data.colNames) then .error .nonNumericData
  else if correlation_method == .kendall && min_periods.isSome then
    .error .invalidParameterValue
  else .ok (data, correlation_method, min_periods)

/-- `covariance_matrix` of
`eis_toolkit/exploratory_analyses/statistical_tests.py`: empty check, numeric
check, sign checks on `delta_degrees_of_freedom` and (when truthy)
`min_periods`, then the pandas `cov` call, recorded as its arguments. -/
def covariance_matrix (data : DataFrame) (min_periods : Option ℤ)
    (delta_degrees_of_freedom : ℤ) : Except Exc (DataFrame × Option ℤ × ℤ) :=
  if check_empty_dataframe data then .error .emptyDataFrame
  else if !(check_columns_numeric data data.colNames) then .error .nonNumericData
  else if delta_degrees_of_freedom < 0 then .error .invalidParameterValue
  else if (match min_periods with
           | none => false
           | some k => !(k == 0) && decide (k < 0)) then .error .invalidParameterValue
  else .ok (data, min_periods, delta_degrees_of_freedom)

/-- Modelled from the spec: `eis_toolkit/transformations/coda/pairwise.py` is
not under `src/` (only its test is). Per the spec, the pairwise logratio
transform rejects a zero operand with the invalid-parameter error and
otherwise delegates the logarithm of the ratio to the numeric library; the
embedding returns the ratio handed to that library call. -/
def single_pairwise_logratio (numerator denominator : ℚ) : Except Exc ℚ :=
  if numerator == 0 || denominator == 0 then .error .invalidParameterValue
  else .ok (numerator / denominator)

/-- Python `str()` of a cell, as used by the encoder's
`feature_name_combiner` (an injective rendering; its exact spelling is
immaterial, only that the combined name strictly extends the feature
name). -/
def Val.text : Val → String
  | .num q => toString q.num ++ "/" ++ toString q.den
  | .nan => "nan"
  | .str s => s

/-- A total order on cells (numpy sorts the categories of a feature; mixed
dtypes are ordered by kind first, as a tie-break the embedding fixes). -/
def Val.le : Val → Val → Bool
  | .nan, _ => true
  | .num _, .nan => false
  | .num a, .num b => decide (a ≤ b)
  | .num _, .str _ => true
  | .str _, .nan => false
  | .str _, .num _ => false
  | .str a, .str b => a == b || decide (a.data < b.data)

/-- Insertion into a sorted list. -/
def insertSorted (v : Val) : List Val → List Val
  | [] => [v]
  | w :: ws => if Val.le v w then v :: w :: ws else w :: insertSorted v ws

/-- Insertion sort of cells. -/
def sortVals : List Val → List Val
  | [] => []
  | v :: vs => insertSorted v (sortVals vs)

/-- sklearn's `categories_` for one feature (at the default
`min_frequency=None`, `max_categories=None`): the sorted distinct values of
the column, as `np.unique` produces. -/
def oneHotCategories (vals : List Val) : List Val :=
  sortVals vals.dedup

/-- The `drop` literal of `OneHotEncoder`. -/
inductive DropCat
  | first
  | ifBinary
deriving DecidableEq, Repr

/-- The categories kept after `OneHotEncoder`'s `drop` policy: `None` keeps
all, `first` drops the first category of the feature, `if_binary` drops the
first exactly when the feature has two categories. -/
def keptCategories (vals : List Val) (drop : Option DropCat) : List Val :=
  let cats := oneHotCategories vals
  match drop with
  | none => cats
  | some .first => cats.tail
  | some .ifBinary => if cats.length = 2 then cats.tail else cats

/-- The indicator column of one category: 1 where the cell equals the
category, 0 elsewhere (the default `dtype=int`). -/
def indicator (vals : List Val) (cat : Val) : List Val :=
  vals.map fun v => if v == cat then Val.num 1 else Val.num 0

/-- The encoder output for one feature: one indicator column per kept
category, named by the source's `feature_name_combiner`
`str(feature) + "_" + str(category)`. -/
def encodeColumn (name : String) (vals : List Val) (drop : Option DropCat) :
    List (String × List Val) :=
  (keptCategories vals drop).map fun cat => (name ++ "_" ++ cat.text, indicator vals cat)

/-- `encoder.fit_transform` with `get_feature_names_out` over a frame: the
indicator columns of all its features, in feature order (sklearn
`OneHotEncoder` at the defaults, modelled from its documented behaviour). -/
def encodeFrame (df : DataFrame) (drop : Option DropCat) : List (String × List Val) :=
  df.cols.flatMap fun c => encodeColumn c.1 c.2 drop

/-- The DataFrame branch of `one_hot_encode` of
`eis_toolkit/transformations/one_hot_encoding.py` (`is_dataframe = True`),
as a value: reject an empty frame, copy, validate any selected columns,
encode the selected (or all) columns, drop the encoded originals when
`drop_encoded_columns`, and concatenate the remaining frame with the
indicator columns. -/
def one_hot_encode (data : DataFrame) (columns : Option (List String))
    (drop_encoded_columns : Bool) (drop_category : Option DropCat) :
    Except Exc DataFrame :=
  if data.pdEmpty then .error .emptyDataFrame
  else
    let df := data
    match columns with
    | some cols =>
      if !(check_columns_valid df cols) then .error .invalidColumn
      else
        let transform_df := df.select cols
        let encoded := encodeFrame transform_df drop_category
        let df2 := if drop_encoded_columns then df.dropCols transform_df.colNames else df
        .ok ⟨df2.cols ++ encoded⟩
    | none =>
      let transform_df := df
      let encoded := encodeFrame transform_df drop_category
      let df2 := if drop_encoded_columns then df.dropCols transform_df.colNames else df
      .ok ⟨df2.cols ++ encoded⟩

/-- A store of pandas frames: Python objects live on a heap and a variable
holds a reference into it. `one_hot_encode` is re-run over this store to
state what happens to the frame object the caller passed in. -/
structure PdState where
  store : List DataFrame
deriving DecidableEq, Repr

/-- Dereference (an out-of-range reference yields an empty frame; theorems
restrict to live references). -/
def PdState.get (s : PdState) (r : Nat) : DataFrame :=
  s.store.getD r ⟨[]⟩

/-- Allocate a fresh frame, returning its reference. -/
def PdState.alloc (s : PdState) (df : DataFrame) : Nat × PdState :=
  (s.store.length, ⟨s.store ++ [df]⟩)

/-- Overwrite the frame at a reference (what an in-place pandas operation
does). -/
def PdState.put (s : PdState) (r : Nat) (df : DataFrame) : PdState :=
  ⟨s.store.set r df⟩

/-- `data.copy()`: allocates a fresh copy. -/
def pdCopy (s : PdState) (r : Nat) : Nat × PdState :=
  s.alloc (s.get r)

/-- `df.drop(names, axis=1)`: with `inplace=False` (the default, which the
source uses) it allocates the reduced frame afresh and returns its
reference; with `inplace=True` it would overwrite the frame at `r`. -/
def pdDrop (s : PdState) (r : Nat) (names : List String) (inplace : Bool) :
    Option Nat × PdState :=
  if inplace then (none, s.put r ((s.get r).dropCols names))
  else
    let a := s.alloc ((s.get r).dropCols names)
    (some a.1, a.2)

/-- `pd.concat([df1, df2], axis=1)`: allocates the concatenation afresh. -/
def pdConcat (s : PdState) (r1 r2 : Nat) : Nat × PdState :=
  s.alloc ⟨(s.get r1).cols ++ (s.get r2).cols⟩

/-- The DataFrame branch of `one_hot_encode`, re-run over the frame store,
mirroring the source statement by statement: the emptiness test reads
`data`; `df = data.copy()` allocates; the encoder reads `df`; the encoded
frame is allocated; `df = df.drop(transform_df.columns, axis=1)` (not in
place) allocates; `pd.concat` allocates the result. -/
def one_hot_encode_st (s : PdState) (data : Nat) (columns : Option (List String))
    (drop_encoded_columns : Bool) (drop_category : Option DropCat) :
    Except Exc Nat × PdState :=
  if (s.get data).pdEmpty then (.error .emptyDataFrame, s)
  else
    let c := pdCopy s data
    let df := c.1
    let s1 := c.2
    let colsOk := match columns with
      | some cols => check_columns_valid (s1.get df) cols
      | none => true
    if !colsOk then (.error .invalidColumn, s1)
    else
      let transform_df := match columns with
        | some cols => (s1.get df).select cols
        | none => s1.get df
      let encoded : DataFrame := ⟨encodeFrame transform_df drop_category⟩
      let e := s1.alloc encoded
      let s2 := e.2
      let d :=
        if drop_encoded_columns then
          let dr := pdDrop s2 df transform_df.colNames false
          (dr.1.getD df, dr.2)
        else (df, s2)
      let r := pdConcat d.2 d.1 e.1
      (.ok r.1, r.2)

/-- A two-dimensional float array of 5002 observations whose first axis has
length 2. -/
def oversize2d : NpArray :=
  ⟨[2, 2501], List.replicate 5002 (Val.num 1)⟩

/-- C5: the claim (and the function's own docstring) says input exceeding
5000 observations always fails with the sample-size error. The exhibit: a
well-formed 2x2501 array holds 5002 observations, yet `normality_test`
checks `len(data)` — the first-axis length, here 2 — so no
`SampleSizeExceededException` is raised and all 5002 samples are handed to
the library test. -/
theorem normality_test_first_axis_guard_misses_2d :
    (oversize2d.size = 5002 ∧ 5000 < oversize2d.size ∧
        oversize2d.data.length = oversize2d.size) ∧
      normality_test (.array oversize2d) none
        = .ok (.arrayStats (List.replicate 5002 (Val.num 1))) := by
  have hfilter : (List.replicate 5002 (Val.num 1)).filter (fun v => !(v == Val.nan))
      = List.replicate 5002 (Val.num 1) := by
    apply List.filter_eq_self.mpr
    intro a ha
    rw [List.eq_of_mem_replicate ha]
    rfl
  have h1 : oversize2d.size = 5002 := rfl
  have h2 : oversize2d.pyLen = 2 := rfl
  have h3 : oversize2d.data = List.replicate 5002 (Val.num 1) := rfl
  refine ⟨⟨h1, by rw [h1]; norm_num, by rw [h1, h3, List.length_replicate]⟩, ?_⟩
  simp only [normality_test, h1, h2, h3]
  norm_num [hfilter]

/-- C7: over an empty table, `correlation_matrix` and `covariance_matrix`
fail with the empty-dataframe error, whatever the remaining arguments — the
error is decided before the other validations and before the library matrix
computation. -/
theorem matrix_functions_empty_table_fail (data : DataFrame) (method : CorrMethod)
    (mp mp2 : Option ℤ) (ddof : ℤ) (h : check_empty_dataframe data = true) :
    correlation_matrix data method mp = .error .emptyDataFrame ∧
      covariance_matrix data mp2 ddof = .error .emptyDataFrame :=
  ⟨by simp [correlation_matrix, h], by simp [covariance_matrix, h]⟩

/-- Witness for C7 at the empty frame, with arguments that would trip the
later validations were they reached. -/
theorem matrix_functions_empty_table_fail_witness :
    check_empty_dataframe ⟨[]⟩ = true ∧
      correlation_matrix ⟨[]⟩ .kendall (some 2) = .error .emptyDataFrame ∧
      covariance_matrix ⟨[]⟩ (some (-2)) (-1) = .error .emptyDataFrame :=
  ⟨rfl, matrix_functions_empty_table_fail ⟨[]⟩ .kendall (some 2) (some (-2)) (-1) rfl⟩

/-- C8: whenever at least one operand is zero, the pairwise logratio
transform fails with the invalid-parameter error. -/
theorem single_pairwise_logratio_zero_operand (x y : ℚ) (h : x = 0 ∨ y = 0) :
    single_pairwise_logratio x y = .error .invalidParameterValue := by
  rcases h with h | h <;> simp [single_pairwise_logratio, h]

/-- Witness for C8 at the pair (0, 1). -/
theorem single_pairwise_logratio_zero_operand_witness :
    ((0 : ℚ) = 0 ∨ (1 : ℚ) = 0) ∧
      single_pairwise_logratio 0 1 = .error .invalidParameterValue :=
  ⟨Or.inl rfl, single_pairwise_logratio_zero_operand 0 1 (Or.inl rfl)⟩

/-- Inserting into a sorted list adds one element. -/
theorem length_insertSorted (v : Val) (l : List Val) :
    (insertSorted v l).length = l.length + 1 := by
  induction l with
  | nil => rfl
  | cons w ws ih =>
    simp only [insertSorted]
    split
    · simp
    · simp [ih]

/-- Sorting preserves length, so the encoder sees one category per distinct
value. -/
theorem length_sortVals (l : List Val) : (sortVals l).length = l.length := by
  induction l with
  | nil => rfl
  | cons v vs ih => simp [sortVals, length_insertSorted, ih]

/-- An encoder-produced column name strictly extends the feature name, so it
never equals it. -/
theorem encoded_name_ne (col t : String) : col ++ "_" ++ t ≠ col := by
  intro h
  have h2 := congrArg String.length h
  rw [String.length_append, String.length_append,
    show "_".length = 1 from rfl] at h2
  omega

/-- Closed form of `one_hot_encode` over one selected column with
`drop_encoded_columns`: the untouched columns followed by the indicator
columns of the selected one. -/
theorem one_hot_encode_single (df : DataFrame) (col : String) (drop : Option DropCat)
    (hne : df.pdEmpty = false) (hcol : check_columns_valid df [col] = true) :
    one_hot_encode df (some [col]) true drop
      = .ok ⟨(df.dropCols [col]).cols ++ encodeColumn col (df.getCol col) drop⟩ := by
  simp only [one_hot_encode, hne, hcol, Bool.not_true, Bool.false_eq_true, if_false,
    DataFrame.select, List.map, encodeFrame, List.flatMap, DataFrame.colNames,
    if_true, List.append_nil, Bool.not_false, List.flatten_cons, List.flatten_nil]

/-- The encoded column's name is not among the indicator column names. -/
theorem col_notin_encoded (col : String) (vals : List Val) (drop : Option DropCat) :
    col ∉ (encodeColumn col vals drop).map Prod.fst := by
  intro h
  simp only [encodeColumn, List.map_map, List.mem_map] at h
  obtain ⟨cat, _, heq⟩ := h
  exact encoded_name_ne col cat.text heq

/-- The encoded column's name is not among the names kept by the drop. -/
theorem col_notin_dropped (df : DataFrame) (col : String) :
    col ∉ (df.dropCols [col]).cols.map Prod.fst := by
  intro h
  simp only [DataFrame.dropCols, List.mem_map] at h
  obtain ⟨c, hc, heq⟩ := h
  have := (List.mem_filter.mp hc).2
  rw [heq] at this
  simp [List.contains] at this

/-- C6: one-hot encoding a non-empty table over an existing column (at the
default frequency/category limits) yields, next to the untouched columns,
exactly one indicator column per distinct value of the selected column —
one fewer under drop "first" — and the encoded column's own name is absent
from the output when `drop_encoded_columns` is enabled. -/
theorem one_hot_encode_category_counts (df : DataFrame) (col : String)
    (hne : df.pdEmpty = false) (hcol : check_columns_valid df [col] = true) :
    (oneHotCategories (df.getCol col)).length = (df.getCol col).dedup.length ∧
    ∃ out1 out2,
      one_hot_encode df (some [col]) true none = .ok out1 ∧
      one_hot_encode df (some [col]) true (some .first) = .ok out2 ∧
      out1.cols.length
        = (df.dropCols [col]).cols.length + (oneHotCategories (df.getCol col)).length ∧
      out2.cols.length
        = (df.dropCols [col]).cols.length
            + ((oneHotCategories (df.getCol col)).length - 1) ∧
      col ∉ out1.colNames ∧ col ∉ out2.colNames := by
  refine ⟨length_sortVals _, _, _, one_hot_encode_single df col none hne hcol,
    one_hot_encode_single df col (some .first) hne hcol, ?_, ?_, ?_, ?_⟩
  · simp [encodeColumn, keptCategories]
  · simp [encodeColumn, keptCategories, List.length_tail]
  · intro h
    rw [DataFrame.colNames, List.map_append] at h
    rcases List.mem_append.mp h with h | h
    · exact col_notin_dropped df col h
    · exact col_notin_encoded col (df.getCol col) none h
  · intro h
    rw [DataFrame.colNames, List.map_append] at h
    rcases List.mem_append.mp h with h | h
    · exact col_notin_dropped df col h
    · exact col_notin_encoded col (df.getCol col) (some .first) h

/-- A concrete table: a categorical column with two distinct values among
three rows, next to a numeric column. -/
def tinyDF : DataFrame :=
  ⟨[("rock", [.str "granite", .str "basalt", .str "granite"]),
    ("id", [.num 1, .num 2, .num 3])]⟩

/-- Witness for C6 at the concrete table and its "rock" column. -/
theorem one_hot_encode_category_counts_witness :
    tinyDF.pdEmpty = false ∧ check_columns_valid tinyDF ["rock"] = true ∧
      ((oneHotCategories (tinyDF.getCol "rock")).length
          = (tinyDF.getCol "rock").dedup.length ∧
        ∃ out1 out2,
          one_hot_encode tinyDF (some ["rock"]) true none = .ok out1 ∧
          one_hot_encode tinyDF (some ["rock"]) true (some .first) = .ok out2 ∧
          out1.cols.length
            = (tinyDF.dropCols ["rock"]).cols.length
                + (oneHotCategories (tinyDF.getCol "rock")).length ∧
          out2.cols.length
            = (tinyDF.dropCols ["rock"]).cols.length
                + ((oneHotCategories (tinyDF.getCol "rock")).length - 1) ∧
          "rock" ∉ out1.colNames ∧ "rock" ∉ out2.colNames) :=
  ⟨rfl, rfl, one_hot_encode_category_counts tinyDF "rock" rfl rfl⟩

/-- `getD` into the retained prefix of an extended store. -/
theorem getD_append_lt (l t : List DataFrame) (r : Nat) (h : r < l.length) :
    (l ++ t).getD r ⟨[]⟩ = l.getD r ⟨[]⟩ :=
  List.getD_append _ _ _ _ h

/-- C10: re-running `one_hot_encode` over the frame store, the frame object
the caller passed in is untouched: every path only allocates fresh frames
(the copy, the encoded frame, the non-in-place drop, the concatenation), so
the store still holds the original frame at the caller's reference, whatever
the column selection, `drop_encoded_columns` flag and drop policy. -/
theorem one_hot_encode_no_mutation (s : PdState) (r : Nat)
    (columns : Option (List String)) (dec : Bool) (dc : Option DropCat)
    (h : r < s.store.length) :
    ((one_hot_encode_st s r columns dec dc).2).get r = s.get r := by
  simp only [one_hot_encode_st, pdCopy, pdConcat, pdDrop, PdState.alloc, PdState.put,
    PdState.get, Bool.false_eq_true, if_false]
  split
  · rfl
  · split
    · exact getD_append_lt s.store _ r h
    · split
      · dsimp only
        simp only [List.append_assoc]
        exact getD_append_lt s.store _ r h
      · dsimp only
        simp only [List.append_assoc]
        exact getD_append_lt s.store _ r h

/-- Witness for C10 at a store holding the concrete table. -/
theorem one_hot_encode_no_mutation_witness :
    0 < (PdState.mk [tinyDF]).store.length ∧
      ((one_hot_encode_st ⟨[tinyDF]⟩ 0 (some ["rock"]) true none).2).get 0
        = (PdState.mk [tinyDF]).get 0 :=
  ⟨by decide, one_hot_encode_no_mutation ⟨[tinyDF]⟩ 0 (some ["rock"]) true none (by decide)⟩

end EisToolkit
